import Mathlib

/-!
Verification of the signal-processing and aggregation pipeline of the
t-insight repository against its natural-language specification.

Shallow embedding conventions:
* JavaScript numbers are modelled as rationals (`ℚ`); timestamps are
  milliseconds since the epoch, modelled as integers (`ℤ`).
* `x || d` on a possibly-missing numeric field is modelled on `Option`
  values, with both `none` (null/undefined) and `some 0` falling back to
  the default, matching JS truthiness.
* `Math.round x` is `⌊x + 1/2⌋` (JS rounds half-up).
* External library results (wink-sentiment) and database rows are inputs
  to the embedded functions.
-/

set_option allowUnsafeReducibility true
attribute [local semireducible] Rat.mul Rat.inv Rat.add Rat.sub Rat.div Rat.neg

namespace TInsight

/-- JS `String.prototype.toLowerCase()` (ASCII case mapping), as a plain
structural recursion over the character list. -/
def jsToLower (s : String) : String := String.mk (s.data.map Char.toLower)

/-- JS `String.prototype.trim()`: strip leading and trailing whitespace. -/
def jsTrim (s : String) : String :=
  String.mk (((s.data.dropWhile Char.isWhitespace).reverse.dropWhile
    Char.isWhitespace).reverse)

/-- JS `Math.round`: round half towards positive infinity,
i.e. the floor of `x + 1/2`. -/
def jsRound (x : ℚ) : ℤ := (x + 1/2).floor

/-- JS `v || 0` for a possibly-missing rational field (null/undefined/0 ↦ 0). -/
def jsOrZero (v : Option ℚ) : ℚ :=
  match v with
  | none => 0
  | some x => x

/-- JS `v || 1` for a possibly-missing integer field (null/undefined/0 ↦ 1). -/
def jsOrOne (v : Option ℤ) : ℤ :=
  match v with
  | none => 1
  | some x => if x = 0 then 1 else x

/-! ## Customer Happiness Index (`calculateCHI`, lib/chi-calculator)

`calculateCHI` fetches the rows `{sentiment, intensity}` of all signals
with `detected_at` inside the window and then runs a pure computation on
them; the embedding takes the fetched rows as input. -/

/-- A `{sentiment, intensity}` row as fetched by `calculateCHI`;
either field may be null in the database. -/
structure ChiRow where
  sentiment : Option ℚ
  intensity : Option ℤ
  deriving DecidableEq

/-- The pure core of `calculateCHI`: given the signal rows fetched for the
requested window, return the clamped happiness score, or `none` ("no data")
when there are no rows or the total intensity is zero. -/
def calculateCHI (signals : List ChiRow) : Option ℤ :=
  if signals.length = 0 then
    none
  else
    let totalWeightedSentiment :=
      (signals.map (fun s => jsOrZero s.sentiment * (jsOrOne s.intensity : ℚ))).sum
    let totalIntensity := (signals.map (fun s => jsOrOne s.intensity)).sum
    if totalIntensity = 0 then
      none
    else
      let avgSentiment := totalWeightedSentiment / (totalIntensity : ℚ)
      let chiScore := jsRound (((avgSentiment + 1) / 2) * 100)
      some (max 0 (min 100 chiScore))

/-! ## Deduplicator (lib/processing/deduplicator)

Signals carry a topic, keyword list, sentiment, detection timestamp (ms),
source, optional product area, and metadata. -/

/-- The metadata object attached to a signal.  The fields written by the
pipeline are tracked individually; `rest` stands for any further fields,
preserved by the object spread in `mergeSignals`. -/
structure Meta where
  duplicate_count : Option ℤ := none
  latest_source : Option String := none
  latest_detected : Option ℤ := none
  original_text : Option String := none
  confidence : Option ℚ := none
  sentiment_confidence : Option ℚ := none
  raw_event_id : Option ℕ := none
  rest : List (String × String) := []
  deriving DecidableEq

/-- The `Signal` interface of the deduplicator.  Stored rows additionally
carry `id` and `intensity` (absent on a fresh candidate); TypeScript's
structural typing lets both flow through the same functions. -/
structure Signal where
  id : Option ℕ := none
  topic : String
  keywords : List String
  sentiment : ℚ
  /-- `detected_at`, milliseconds since the epoch. -/
  detected_at : ℤ
  source : String
  product_area : Option String := none
  intensity : Option ℤ := none
  meta : Meta := {}
  deriving DecidableEq

/-- `TIME_WINDOW_MS`: 30 minutes. -/
def TIME_WINDOW_MS : ℤ := 30 * 60 * 1000

/-- `KEYWORD_SIMILARITY_THRESHOLD = 0.5`. -/
def KEYWORD_SIMILARITY_THRESHOLD : ℚ := 1/2

/-- `calculateKeywordSimilarity`: case-insensitive Jaccard similarity of
the two keyword lists, with an explicit 0 when either list is empty.
JS `Set`s keep first-insertion order, which `List.dedup` mirrors. -/
def calculateKeywordSimilarity (keywords1 keywords2 : List String) : ℚ :=
  if keywords1.length = 0 ∨ keywords2.length = 0 then 0
  else
    let set1 := (keywords1.map jsToLower).dedup
    let set2 := (keywords2.map jsToLower).dedup
    let matchCount := (set1.filter (fun k => k ∈ set2)).length
    let union := (set1 ++ set2).dedup
    (matchCount : ℚ) / union.length

/-- `isWithinTimeWindow`: the two timestamps differ by at most 30 minutes. -/
def isWithinTimeWindow (time1 time2 : ℤ) : Bool :=
  |time1 - time2| ≤ TIME_WINDOW_MS

/-- `areDuplicates`: same product area, within the time window, and keyword
similarity at least the threshold. -/
def areDuplicates (signal1 signal2 : Signal) : Bool :=
  if signal1.product_area ≠ signal2.product_area then false
  else if ¬ isWithinTimeWindow signal1.detected_at signal2.detected_at then false
  else calculateKeywordSimilarity signal1.keywords signal2.keywords
         ≥ KEYWORD_SIMILARITY_THRESHOLD

/-- The sort comparator of `selectRepresentative`, as a strict preference:
`a` comes strictly before `b` when it has larger sentiment magnitude, or
equal magnitude and an earlier timestamp. -/
def repPreferred (a b : Signal) : Prop :=
  |a.sentiment| > |b.sentiment| ∨
    (|a.sentiment| = |b.sentiment| ∧ a.detected_at < b.detected_at)

instance (a b : Signal) : Decidable (repPreferred a b) := by
  unfold repPreferred; infer_instance

/-- `selectRepresentative`: the first element of the stable sort by
(sentiment magnitude descending, timestamp ascending) — i.e. the first
member that no later member strictly beats.  The source throws on an empty
group; that is modelled as `none`. -/
def selectRepresentative (signals : List Signal) : Option Signal :=
  match signals with
  | [] => none
  | x :: xs =>
    some (xs.foldl (fun best s => if repPreferred s best then s else best) x)

/-- `calculateAvgSentiment`: arithmetic mean of the members' sentiments
(0 for an empty list). -/
def calculateAvgSentiment (signals : List Signal) : ℚ :=
  if signals.length = 0 then 0
  else (signals.map Signal.sentiment).sum / signals.length

/-- A `DuplicateGroup` as produced by `groupDuplicates`. -/
structure DuplicateGroup where
  representative : Option Signal
  duplicates : List Signal
  intensity : ℕ
  avgSentiment : ℚ
  deriving DecidableEq

/-- The greedy grouping scan, structurally recursive on a fuel bound: the
first ungrouped signal seeds a group containing every later still-ungrouped
signal that is a duplicate of the seed; the remainder is scanned
recursively.  Filtering only shrinks the remainder, so any fuel of at least
the list length reproduces the source's index/`grouped`-set loop. -/
def groupDuplicatesAux : ℕ → List Signal → List DuplicateGroup
  | 0, _ => []
  | _, [] => []
  | fuel + 1, currentSignal :: rest =>
    let duplicates :=
      currentSignal :: rest.filter (fun o => areDuplicates currentSignal o)
    let remaining := rest.filter (fun o => ! areDuplicates currentSignal o)
    { representative := selectRepresentative duplicates
      duplicates := duplicates
      intensity := duplicates.length
      avgSentiment := calculateAvgSentiment duplicates } ::
      groupDuplicatesAux fuel remaining

/-- `groupDuplicates`: greedy duplicate grouping of a signal list. -/
def groupDuplicates (signals : List Signal) : List DuplicateGroup :=
  groupDuplicatesAux signals.length signals

/-- `findExistingDuplicate`: first stored signal the candidate duplicates,
scanning in list order. -/
def findExistingDuplicate (newSignal : Signal) (existingSignals : List Signal) :
    Option Signal :=
  existingSignals.find? (fun existing => areDuplicates newSignal existing)

/-- `mergeSignals`: merged in-memory signal — spread of the existing signal
with averaged sentiment, the earlier timestamp, and updated metadata. -/
def mergeSignals (existing newSignal : Signal) : Signal :=
  { existing with
    sentiment := (existing.sentiment + newSignal.sentiment) / 2
    detected_at :=
      if existing.detected_at < newSignal.detected_at then existing.detected_at
      else newSignal.detected_at
    meta :=
      { existing.meta with
        duplicate_count := some (jsOrOne existing.meta.duplicate_count + 1)
        latest_source := some newSignal.source
        latest_detected := some newSignal.detected_at } }

/-! ## A small JSON value model

Raw-event payloads are arbitrary JSON (`any` in the source).  `Json.null`
models both JS `null` and `undefined` stored in a structure; an absent
object field is `none` at the access site. -/

inductive Json where
  | null : Json
  | bool (b : Bool) : Json
  | num (q : ℚ) : Json
  | str (s : String) : Json
  | arr (elems : List Json) : Json
  | obj (fields : List (String × Json)) : Json

/-- JS truthiness of a possibly-absent value: `undefined`, `null`, `false`,
`0` and `""` are falsy. -/
def jsTruthy (v : Option Json) : Bool :=
  match v with
  | none => false
  | some Json.null => false
  | some (Json.bool b) => b
  | some (Json.num q) => q ≠ 0
  | some (Json.str s) => s ≠ ""
  | some (Json.arr _) => true
  | some (Json.obj _) => true

/-- Field lookup on an object value; `none` is JS `undefined` (missing field
or non-object receiver).  Use `jsGet` when plain `x.f` access can throw. -/
def jsField : Json → String → Option Json
  | Json.obj fields, key => (fields.find? (fun p => p.1 = key)).map Prod.snd
  | _, _ => none

/-- Plain property access `x.f`: throws a `TypeError` when the receiver is
`null`/`undefined`, otherwise yields the field (or `undefined`). -/
def jsGet (v : Json) (key : String) : Except Unit (Option Json) :=
  match v with
  | Json.null => Except.error ()
  | j => Except.ok (jsField j key)

/-- Optional-chained access `x?.f`: `undefined` instead of a throw on a
nullish receiver. -/
def jsGetOpt (v : Json) (key : String) : Option Json :=
  match v with
  | Json.null => none
  | j => jsField j key

mutual

/-- JS string conversion of a defined value, as used in template literals:
`null` prints as "null", objects as "[object Object]", arrays as the
comma-joined conversion of their elements (nullish elements print empty,
as in `Array.prototype.toString`).  Non-integral number display is
approximated; no claim depends on it. -/
def jsDisplayVal : Json → String
  | Json.null => "null"
  | Json.bool b => if b then "true" else "false"
  | Json.num q => if q.den = 1 then toString q.num else toString q
  | Json.str s => s
  | Json.arr elems => String.intercalate "," (jsDisplayArr elems)
  | Json.obj _ => "[object Object]"

def jsDisplayArr : List Json → List String
  | [] => []
  | Json.null :: rest => "" :: jsDisplayArr rest
  | e :: rest => jsDisplayVal e :: jsDisplayArr rest

end

/-- JS string conversion of a possibly-`undefined` value in a template
literal: `undefined` prints as "undefined". -/
def jsDisplay (v : Option Json) : String :=
  match v with
  | none => "undefined"
  | some j => jsDisplayVal j

/-- `v || ''`: the value itself when truthy, otherwise the empty string. -/
def jsOrEmptyStr (v : Option Json) : Json :=
  if jsTruthy v then v.getD Json.null else Json.str ""

/-- `Array.prototype.join(sep)`: nullish elements become empty strings. -/
def jsJoin (elems : List (Option Json)) (sep : String) : String :=
  String.intercalate sep
    (elems.map (fun v =>
      match v with
      | none => ""
      | some Json.null => ""
      | some j => jsDisplay (some j)))

/-! ## Raw event processing (app/api/process/raw/route.ts) -/

/-- One `{text, geo}` item extracted from a raw event.  `text` is kept as a
raw JS value (`none` = `undefined`) because sources like customer-feedback
assign a payload field to it without stringification. -/
structure ExtractedItem where
  text : Option Json
  geo : Option Json

/-- A `raw_events` row as read by the processing route. -/
structure RawEvent where
  id : ℕ
  source : String
  raw_payload : Json
  fetched_at : ℤ

/-- The body of `extractIndividualItems`, in the `Except` monad so that a
thrown `TypeError` (property access on a nullish value) propagates to the
surrounding `try`. -/
def extractIndividualItemsCore (rawPayload : Json) (source : String) :
    Except Unit (List ExtractedItem) :=
  if source = "reddit" then
    match rawPayload with
    | Json.arr posts =>
      posts.mapM (fun post => do
        let title ← jsGet post "title"
        let selftext ← jsGet post "selftext"
        let text := jsTrim (jsDisplay title ++ " " ++ jsDisplay (some (jsOrEmptyStr selftext)))
        pure { text := some (Json.str text), geo := none })
    | _ => Except.ok []
  else if source = "google-news" then
    match rawPayload with
    | Json.arr articles =>
      articles.mapM (fun article => do
        let title ← jsGet article "title"
        let description ← jsGet article "description"
        let text := jsTrim (jsDisplay title ++ " " ++ jsDisplay (some (jsOrEmptyStr description)))
        pure { text := some (Json.str text), geo := none })
    | _ => Except.ok []
  else if source = "tmobile-community" then
    match rawPayload with
    | Json.arr discussions =>
      discussions.mapM (fun discussion => do
        let title ← jsGet discussion "title"
        let excerpt ← jsGet discussion "excerpt"
        let text := jsTrim (jsDisplay title ++ " " ++ jsDisplay excerpt)
        pure { text := some (Json.str text), geo := none })
    | _ => Except.ok []
  else if source = "outage-report" then
    match jsGetOpt rawPayload "events" with
    | some (Json.arr events) =>
      events.mapM (fun event => do
        let description ← jsGet event "description"
        pure { text := some (jsOrEmptyStr description), geo := none })
    | _ => Except.ok []
  else if source = "downdetector" then
    match jsGetOpt rawPayload "user_comments" with
    | some (Json.arr comments) =>
      comments.mapM (fun comment => do
        let text ← jsGet comment "text"
        let location ← jsGet comment "location"
        pure { text := some (jsOrEmptyStr text)
               geo := if jsTruthy location then
                        some (Json.obj [("location", location.getD Json.null)])
                      else none })
    | _ => Except.ok []
  else if source = "customer-feedback" then do
    let comments ← jsGet rawPayload "comments"
    match comments with
    | some (Json.arr cs) =>
      cs.mapM (fun comment => do
        let text ← jsGet comment "comment"
        let city ← jsGet comment "city"
        let state ← jsGet comment "state"
        pure { text := text
               geo := if jsTruthy city ∧ jsTruthy state then
                        some (Json.obj [("city", city.getD Json.null),
                                        ("state", state.getD Json.null)])
                      else none })
    | _ => Except.ok []
  else if source = "istheservicedown" then do
    let statusMsg := jsOrEmptyStr (jsGetOpt rawPayload "status_message")
    let socialMentionsJoined ←
      match jsGetOpt rawPayload "social_mentions" with
      | none => Except.ok none
      | some Json.null => Except.ok none
      | some (Json.arr mentions) => do
        let texts ← mentions.mapM (fun mention => jsGet mention "text")
        Except.ok (some (Json.str (jsJoin texts "\n\n")))
      | some _ => Except.error ()
    let socialMentions := jsOrEmptyStr socialMentionsJoined
    let text := jsTrim (jsDisplay (some statusMsg) ++ "\n\n" ++ jsDisplay (some socialMentions))
    if text ≠ "" then Except.ok [{ text := some (Json.str text), geo := none }]
    else Except.ok []
  else
    Except.ok []

/-- `extractIndividualItems`: the `try`/`catch` wrapper — any thrown error
degrades to an empty item list; an unrecognized source yields `[]` with a
logged warning. -/
def extractIndividualItems (rawPayload : Json) (source : String) :
    List ExtractedItem :=
  match extractIndividualItemsCore rawPayload source with
  | Except.ok items => items
  | Except.error _ => []

/-- The database write decided by `processSingleItem` after scoring and
classification: merge-update of an existing duplicate, or a fresh insert. -/
inductive DbAction where
  | update (id : Option ℕ) (sentiment : ℚ) (intensity : ℤ) (meta : Meta)
  | insert (source : String) (detected_at : ℤ) (sentiment : ℚ) (topic : String)
      (intensity : ℤ) (product_area_id : Option String) (geo : Option Json)
      (meta : Meta)

/-- The duplicate-check-then-persist tail of `processSingleItem` (route
lines 267–309), taking the candidate signal built from the sentiment and
topic results (lines 251–265) as input. -/
def processSingleItemAction (newSignal : Signal) (recentSignals : List Signal)
    (productAreaId : Option String) (geo : Option Json) : DbAction :=
  let existingDuplicate :=
    if recentSignals.length > 0 then findExistingDuplicate newSignal recentSignals
    else none
  match existingDuplicate with
  | some existing =>
    let mergedSignal := mergeSignals existing newSignal
    DbAction.update existing.id mergedSignal.sentiment
      (jsOrOne existing.meta.duplicate_count + 1) mergedSignal.meta
  | none =>
    DbAction.insert newSignal.source newSignal.detected_at newSignal.sentiment
      newSignal.topic 1 productAreaId geo newSignal.meta

/-- The stored row after the merge branch of `processSingleItem`: the
update writes only `sentiment`, `intensity` and `meta` — `detected_at`
(and everything else) keeps its stored value. -/
def applyMergeUpdate (existing newSignal : Signal) : Signal :=
  { existing with
    sentiment := (mergeSignals existing newSignal).sentiment
    intensity := some (jsOrOne existing.meta.duplicate_count + 1)
    meta := (mergeSignals existing newSignal).meta }

/-- `processEvent`: extract the event's items; zero items is a success with
zero signals, otherwise each item is processed and the successes counted.
`psi` abstracts `processSingleItem`'s success (scoring, classification and
the database write). -/
def processEvent (psi : ExtractedItem → Bool) (event : RawEvent) : Bool × ℕ :=
  let items := extractIndividualItems event.raw_payload event.source
  if items.length = 0 then (true, 0)
  else (true, (items.filter psi).length)

/-- The accumulator of the `POST` handler's batch loop. -/
structure BatchState where
  successCount : ℕ
  totalSignalsCreated : ℕ
  processedEventIds : List ℕ

/-- One iteration of the `POST` batch loop. -/
def batchStep (psi : ExtractedItem → Bool) (acc : BatchState) (event : RawEvent) :
    BatchState :=
  let result := processEvent psi event
  if result.1 then
    { successCount := acc.successCount + 1
      totalSignalsCreated := acc.totalSignalsCreated + result.2
      processedEventIds := acc.processedEventIds ++ [event.id] }
  else acc

/-- The `POST` batch loop: process each event in order; successful events
are counted and their ids collected for the final bulk update. -/
def runBatch (psi : ExtractedItem → Bool) (events : List RawEvent) : BatchState :=
  events.foldl (batchStep psi)
    { successCount := 0, totalSignalsCreated := 0, processedEventIds := [] }

/-- The ids written by the final `processed := true` bulk update (issued
only when at least one event succeeded). -/
def markedProcessedIds (st : BatchState) : List ℕ :=
  if st.processedEventIds.length > 0 then st.processedEventIds else []

/-! ## Velocity engine (app/api/.../route.ts, early-warning GET handler) -/

/-- A signal row as fetched by the velocity route (last hour). -/
structure VelocitySignalRow where
  topic : String
  intensity : Option ℚ
  product_area_id : Option String
  detected_at : ℤ
  deriving DecidableEq

/-- The per-issue accumulator of the route's `issueMap` (presentation-only
fields `productAreaName`/`color` are omitted). -/
structure IssueAcc where
  topic : String
  /-- `signal.product_area_id || ''`. -/
  productAreaId : String
  totalIntensity : ℚ
  signalCount : ℕ
  latestTimestamp : ℤ
  deriving DecidableEq

/-- The map key `topic::product_area_id` (a database `null` area prints as
"null" in the template literal). -/
def issueKey (s : VelocitySignalRow) : String :=
  s.topic ++ "::" ++ (match s.product_area_id with
                      | some p => p
                      | none => "null")

/-- Replace the entry at `key` (JS `Map.set` on an existing key). -/
def updateAssoc (m : List (String × IssueAcc)) (key : String) (acc : IssueAcc) :
    List (String × IssueAcc) :=
  m.map (fun p => if p.1 = key then (key, acc) else p)

/-- The grouping loop: fold the recent signals into the insertion-ordered
`issueMap`, summing `intensity || 0`, counting signals, and tracking the
latest `detected_at`. -/
def buildIssueMap (signals : List VelocitySignalRow) :
    List (String × IssueAcc) :=
  signals.foldl
    (fun m signal =>
      let key := issueKey signal
      match m.find? (fun p => p.1 = key) with
      | some (_, existing) =>
        updateAssoc m key
          { existing with
            totalIntensity := existing.totalIntensity + jsOrZero signal.intensity
            signalCount := existing.signalCount + 1
            latestTimestamp :=
              if signal.detected_at > existing.latestTimestamp then signal.detected_at
              else existing.latestTimestamp }
      | none =>
        m ++ [(key,
          { topic := signal.topic
            productAreaId := (match signal.product_area_id with
                              | some p => p
                              | none => "")
            totalIntensity := jsOrZero signal.intensity
            signalCount := 1
            latestTimestamp := signal.detected_at })])
    []

/-- A `signal_intensity_snapshots` row (last 24 hours, ascending). -/
structure SnapshotRow where
  intensity : ℚ
  snapshot_at : ℤ
  signal_count : ℕ
  deriving DecidableEq

/-- The velocity figures computed for one issue. -/
structure VelocityResult where
  velocity : ℚ
  projectedIntensity : ℚ
  confidence : ℚ
  timeToSpreadHours : ℚ
  deriving DecidableEq

/-- The per-issue velocity computation of the route: with at least two
snapshots (ordered ascending by `snapshot_at`) and positive elapsed time,
real velocity, confidence, 2-hour projection and time-to-critical; with
fewer snapshots but more than one signal this hour, the estimate branch;
otherwise the defaults (velocity 0, confidence 0.5). -/
def computeVelocity (issue : IssueAcc) (snapshots : List SnapshotRow)
    (now : ℤ) : VelocityResult :=
  let base : VelocityResult :=
    { velocity := 0, projectedIntensity := issue.totalIntensity,
      confidence := 1/2, timeToSpreadHours := 0 }
  match snapshots with
  | s0 :: s1 :: srest =>
    let oldestSnapshot := s0
    let newestSnapshot := (s1 :: srest).getLast (List.cons_ne_nil s1 srest)
    let timeDiffHours : ℚ :=
      ((newestSnapshot.snapshot_at - oldestSnapshot.snapshot_at : ℤ) : ℚ) / (1000 * 60 * 60)
    if timeDiffHours > 0 then
      let intensityChange := newestSnapshot.intensity - oldestSnapshot.intensity
      let velocity := intensityChange / timeDiffHours
      let confidence := min (9/10) (1/2 + ((s0 :: s1 :: srest).length : ℚ) / 20)
      let projectedIntensity :=
        max issue.totalIntensity (issue.totalIntensity + velocity * 2)
      let timeToSpreadHours :=
        if velocity > 0 ∧ issue.totalIntensity < 100 then
          (100 - issue.totalIntensity) / velocity
        else 0
      { velocity := velocity, projectedIntensity := projectedIntensity,
        confidence := confidence, timeToSpreadHours := timeToSpreadHours }
    else base
  | _ =>
    if issue.signalCount > 1 then
      let hoursSinceFirstSignal : ℚ :=
        ((now - issue.latestTimestamp : ℤ) : ℚ) / (1000 * 60 * 60)
      if hoursSinceFirstSignal > 1/10 then
        let velocity := issue.totalIntensity / max hoursSinceFirstSignal 1
        let projectedIntensity := issue.totalIntensity + velocity * 2
        let timeToSpreadHours :=
          if velocity > 0 ∧ issue.totalIntensity < 100 then
            (100 - issue.totalIntensity) / velocity
          else 0
      { velocity := velocity, projectedIntensity := projectedIntensity,
        confidence := 3/10, timeToSpreadHours := timeToSpreadHours }
      else base
    else base

/-! ## Sentiment analysis (lib/processing/sentiment)

The external `wink-sentiment` library is modelled as an oracle: its result
on the preprocessed text (or `none` for a thrown exception) is an input to
`analyzeSentiment`.  Everything around it is embedded from the source. -/

/-- One token of wink-sentiment's `tokenizedPhrase`. -/
structure WinkToken where
  value : String
  score : Option ℚ := none
  negation : Bool := false
  deriving DecidableEq

/-- The result object returned by the `wink-sentiment` call. -/
structure WinkResult where
  score : Option ℚ := none
  tokenizedPhrase : Option (List WinkToken) := none
  deriving DecidableEq

/-- `textQuality` classification. -/
inductive TextQuality where
  | high
  | medium
  | low
  deriving DecidableEq

/-- The `details` field of a `SentimentResult`. -/
structure SentimentDetails where
  totalTokens : ℕ
  scoredTokens : ℕ
  negationDetected : Bool
  dominantTokens : List String
  textQuality : TextQuality
  deriving DecidableEq

/-- The result of `analyzeSentiment`. -/
structure SentimentResult where
  score : ℚ
  confidence : ℚ
  rawScore : ℚ
  normalizedScore : ℚ
  details : SentimentDetails
  deriving DecidableEq

/-- `TELECOM_SENTIMENT_BOOSTERS`: the fixed phrase → signed-weight table. -/
def TELECOM_SENTIMENT_BOOSTERS : List (String × ℚ) :=
  [("outage", -3/10), ("down", -1/4), ("dropped", -1/4), ("disconnected", -1/4),
   ("no signal", -3/10), ("no service", -3/10),
   ("slow", -1/5), ("lagging", -1/5), ("buffering", -1/5), ("throttled", -1/4),
   ("congested", -1/5),
   ("terrible", -1/4), ("worst", -1/4), ("unusable", -3/10), ("pathetic", -1/4),
   ("garbage", -1/4),
   ("fixed", 3/10), ("resolved", 3/10), ("restored", 3/10), ("working again", 3/10),
   ("working", 1/5), ("better", 1/5), ("improved", 1/4), ("excellent", 1/4),
   ("amazing", 1/4), ("fantastic", 1/4), ("reliable", 1/5), ("fast", 1/5)]

/-- `haystack.includes(needle)`. -/
def strContains (haystack needle : String) : Bool :=
  decide (needle.data <:+: haystack.data)

/-- Collapse every whitespace run to a single space (`replace(/\s+/g, ' ')`). -/
def collapseWS : List Char → List Char
  | [] => []
  | c :: rest =>
    if c.isWhitespace then ' ' :: collapseWS (rest.dropWhile Char.isWhitespace)
    else c :: collapseWS rest
  termination_by l => l.length
  decreasing_by
    all_goals simp only [List.length_cons]
    · exact Nat.lt_succ_of_le (List.dropWhile_sublist _).length_le
    · exact Nat.lt_succ_self _

/-- A character matched by the class `[!?.]`. -/
def isCappedPunct (c : Char) : Bool := c = '!' ∨ c = '?' ∨ c = '.'

/-- `replace(/([!?.]){3,}/g, '$1$1')`: a run of three or more `[!?.]`
characters becomes its last character doubled. -/
def capPunct : List Char → List Char
  | [] => []
  | c :: rest =>
    if isCappedPunct c then
      let run := c :: rest.takeWhile isCappedPunct
      let after := rest.dropWhile isCappedPunct
      (if run.length ≥ 3 then [run.getLastD c, run.getLastD c] else run) ++ capPunct after
    else c :: capPunct rest
  termination_by l => l.length
  decreasing_by
    all_goals simp only [List.length_cons]
    · exact Nat.lt_succ_of_le (List.dropWhile_sublist _).length_le
    · exact Nat.lt_succ_self _

/-- An ALL-CAPS word longer than 3 characters (`/^[A-Z]+$/` plus the
upper-case identity check, which the character class already implies). -/
def isShoutWord (w : List Char) : Bool :=
  w.length > 3 ∧ w.all (fun c => 'A' ≤ c ∧ c ≤ 'Z')

/-- De-shout one word: keep the first character, lowercase the rest. -/
def deshoutWord (w : List Char) : List Char :=
  if isShoutWord w then
    match w with
    | [] => []
    | c :: cs => c :: cs.map Char.toLower
  else w

/-- `preprocessText`: trim, collapse whitespace, cap repeated punctuation,
and de-shout ALL-CAPS words (split/joined on single spaces). -/
def preprocessText (text : String) : String :=
  if text = "" then ""
  else
    let cleaned := jsTrim text
    let cleaned := String.mk (collapseWS cleaned.data)
    let cleaned := String.mk (capPunct cleaned.data)
    let words := cleaned.splitOn " "
    String.intercalate " " (words.map (fun w => String.mk (deshoutWord w.data)))

/-- JS `s.split(/\s+/)`: pieces between maximal whitespace runs, with an
empty leading (resp. trailing) piece when the string starts (resp. ends)
with whitespace, and `[""]` for the empty string. -/
def jsSplitWS (s : String) : List String :=
  go s.data []
where
  go : List Char → List Char → List String
  | [], acc => [String.mk acc.reverse]
  | c :: rest, acc =>
    if c.isWhitespace then
      String.mk acc.reverse :: go (rest.dropWhile Char.isWhitespace) []
    else go rest (c :: acc)
  termination_by l _ => l.length
  decreasing_by
    all_goals simp only [List.length_cons]
    · exact Nat.lt_succ_of_le (List.dropWhile_sublist _).length_le
    · exact Nat.lt_succ_self _

/-- `assessTextQuality`: word count, vocabulary uniqueness and punctuation
density decide low/medium/high. -/
def assessTextQuality (text : String) : TextQuality :=
  let length := text.length
  let wordCount := (jsSplitWS text).length
  let uniqueWords := ((jsSplitWS (jsToLower text)).dedup).length
  let uniqueRatio : ℚ := (uniqueWords : ℚ) / (wordCount : ℚ)
  let punctCount := (text.data.filter (fun c => c = '!' ∨ c = '?')).length
  let hasExcessivePunctuation := (punctCount : ℚ) > (wordCount : ℚ) * (3/10)
  let hasExcessiveRepetition := uniqueRatio < 3/10
  if wordCount < 3 ∨ hasExcessivePunctuation ∨ hasExcessiveRepetition then
    TextQuality.low
  else if wordCount ≥ 10 ∧ length ≥ 50 ∧ uniqueRatio > 3/5 then
    TextQuality.high
  else
    TextQuality.medium

/-- A token contributing non-zero weight (`t.score !== undefined && t.score !== 0`). -/
def isScoredToken (t : WinkToken) : Bool :=
  t.score ≠ none ∧ t.score ≠ some 0

/-- `calculateConfidence`: base from text quality, adjusted by the number
of scored tokens, penalized for very short text, clamped to [0.1, 0.95]. -/
def calculateConfidence (winkResult : WinkResult) (textQuality : TextQuality)
    (textLength : ℕ) : ℚ :=
  let base0 : ℚ :=
    match textQuality with
    | TextQuality.high => 8/10
    | TextQuality.medium => 6/10
    | TextQuality.low => 3/10
  let base1 : ℚ :=
    match winkResult.tokenizedPhrase with
    | some tokens =>
      let scoredTokens := (tokens.filter isScoredToken).length
      if scoredTokens > 5 then min (95/100) (base0 + 1/10)
      else if scoredTokens > 2 then min (9/10) (base0 + 5/100)
      else if scoredTokens = 0 then max (2/10) (base0 - 2/10)
      else base0
    | none => base0
  let base2 : ℚ :=
    if textLength < 10 then base1 * (1/2)
    else if textLength < 20 then base1 * (7/10)
    else base1
  max (1/10) (min (95/100) base2)

/-- `extractDominantTokens`: up to five tokens with truthy score of
magnitude at least 1. -/
def extractDominantTokens (winkResult : WinkResult) : List String :=
  match winkResult.tokenizedPhrase with
  | none => []
  | some tokens =>
    ((tokens.filter (fun t => jsTruthy ((t.score).map Json.num) ∧
        1 ≤ |(t.score).getD 0|)).map WinkToken.value).take 5

/-- `detectNegation`: some token carries `negation: true`. -/
def detectNegation (winkResult : WinkResult) : Bool :=
  match winkResult.tokenizedPhrase with
  | none => false
  | some tokens => tokens.any WinkToken.negation

/-- `applyTelecomBoosters`: average the weights of every matched phrase and
blend 20% of it into the base score, clamping to [-1, 1]. -/
def applyTelecomBoosters (text : String) (baseScore : ℚ) : ℚ :=
  let lowerText := jsToLower text
  let matched := TELECOM_SENTIMENT_BOOSTERS.filter (fun p => strContains lowerText p.1)
  if matched.length > 0 then
    let totalBoost := (matched.map Prod.snd).sum
    let avgBoost := totalBoost / (matched.length : ℚ)
    let boosted := baseScore + avgBoost * (2/10)
    max (-1) (min 1 boosted)
  else baseScore

/-- The zero result for empty/invalid input (confidence 0) and the degraded
result for an internal scorer exception (confidence 0.1). -/
def emptySentimentResult (conf : ℚ) : SentimentResult :=
  { score := 0, confidence := conf, rawScore := 0, normalizedScore := 0,
    details := { totalTokens := 0, scoredTokens := 0, negationDetected := false,
                 dominantTokens := [], textQuality := TextQuality.low } }

/-- `analyzeSentiment`: empty input short-circuits; otherwise preprocess,
assess quality, run the wink oracle (`none` models a thrown exception,
handled by the `catch`), normalize `rawScore / 5` with clamping, apply the
telecom boosters, re-clamp, and compute the confidence. -/
def analyzeSentiment (text : String) (wink : Option WinkResult) : SentimentResult :=
  if (jsTrim text).length = 0 then emptySentimentResult 0
  else
    match wink with
    | none => emptySentimentResult (1/10)
    | some winkResult =>
      let cleaned := preprocessText text
      let textQuality := assessTextQuality cleaned
      let rawScore := jsOrZero winkResult.score
      let normalizedScore := max (-1) (min 1 (rawScore / 5))
      let finalScore := max (-1) (min 1 (applyTelecomBoosters cleaned normalizedScore))
      let confidence := calculateConfidence winkResult textQuality cleaned.length
      let totalTokens := ((winkResult.tokenizedPhrase).map List.length).getD 0
      let scoredTokens :=
        ((winkResult.tokenizedPhrase).map
          (fun ts => (ts.filter isScoredToken).length)).getD 0
      { score := finalScore
        confidence := confidence
        rawScore := rawScore
        normalizedScore := normalizedScore
        details :=
          { totalTokens := totalTokens
            scoredTokens := scoredTokens
            negationDetected := detectNegation winkResult
            dominantTokens := extractDominantTokens winkResult
            textQuality := textQuality } }

/-! ## Concrete instances used by scenario theorems and witnesses -/

/-- First signal of the spec's duplicate scenario: keywords
{network, outage, dallas}, sentiment -0.8, detected at t = 0. -/
def scenarioSignalA : Signal :=
  { topic := "network outage", keywords := ["network", "outage", "dallas"],
    sentiment := -8/10, detected_at := 0, source := "reddit",
    product_area := some "Network" }

/-- Second signal of the spec's duplicate scenario: keywords
{network, down, dallas}, sentiment 0.2, detected 10 minutes later. -/
def scenarioSignalB : Signal :=
  { topic := "network down", keywords := ["network", "down", "dallas"],
    sentiment := 2/10, detected_at := 600000, source := "downdetector",
    product_area := some "Network" }

/-- Non-transitivity example, group-A seed: keywords {x, y}, small
sentiment magnitude. -/
def seedSignal : Signal :=
  { topic := "t", keywords := ["x", "y"], sentiment := 1/10, detected_at := 0,
    source := "s", product_area := some "Network" }

/-- Non-transitivity example, group-A member with the extreme sentiment
(it becomes A's representative): keywords {x, y, z, w}. -/
def extremeSignal : Signal :=
  { topic := "t", keywords := ["x", "y", "z", "w"], sentiment := 9/10,
    detected_at := 60000, source := "s", product_area := some "Network" }

/-- Non-transitivity example, group-B signal: keywords {z, w} — not a
duplicate of `seedSignal` (Jaccard 0) but a duplicate of `extremeSignal`
(Jaccard 1/2). -/
def bridgeSignal : Signal :=
  { topic := "t", keywords := ["z", "w"], sentiment := 5/10,
    detected_at := 120000, source := "s", product_area := some "Network" }

/-- A stored signal for the merge counterexample: detected at t = 600000,
stored intensity 5, no recorded duplicate count. -/
def mergeExisting : Signal :=
  { id := some 1, topic := "t", keywords := ["network", "outage"],
    sentiment := -1/2, detected_at := 600000, source := "reddit",
    product_area := some "Network", intensity := some 5 }

/-- A matching candidate that was detected EARLIER (t = 0) than the stored
signal it merges into. -/
def mergeCandidate : Signal :=
  { topic := "t", keywords := ["network", "outage"], sentiment := -1/4,
    detected_at := 0, source := "downdetector",
    product_area := some "Network" }

/-- The velocity scenario's issue: current-hour intensity 60. -/
def velocityScenarioIssue : IssueAcc :=
  { topic := "net", productAreaId := "p", totalIntensity := 60,
    signalCount := 3, latestTimestamp := 0 }

/-- The velocity scenario's snapshots: intensities 20 → 60, two hours
(7200000 ms) apart. -/
def velocityScenarioSnapshots : List SnapshotRow :=
  [{ intensity := 20, snapshot_at := 0, signal_count := 5 },
   { intensity := 60, snapshot_at := 7200000, signal_count := 9 }]

/-- Estimate-branch example, first signal: 0.9 h before `now = 10000000`. -/
def velocityRow1 : VelocitySignalRow :=
  { topic := "net", intensity := some 4, product_area_id := some "p",
    detected_at := 6760000 }

/-- Estimate-branch example, second signal: 0.5 h before `now = 10000000`. -/
def velocityRow2 : VelocitySignalRow :=
  { topic := "net", intensity := some 6, product_area_id := some "p",
    detected_at := 8200000 }

/-- The issue accumulator produced by grouping the two estimate-branch
rows: total intensity 10, two signals, latest timestamp 8200000. -/
def velocityEstIssue : IssueAcc :=
  { topic := "net", productAreaId := "p", totalIntensity := 10,
    signalCount := 2, latestTimestamp := 8200000 }

/-- A keyword-less candidate signal. -/
def emptyKwCandidate : Signal :=
  { topic := "", keywords := [], sentiment := -1/2, detected_at := 0,
    source := "reddit", product_area := some "Network" }

/-- An identical keyword-less stored signal (same area, same time). -/
def emptyKwExisting : Signal :=
  { id := some 3, topic := "", keywords := [], sentiment := -1/2,
    detected_at := 0, source := "reddit", product_area := some "Network",
    intensity := some 1 }

/-- A raw event whose source tag is not one of the recognized sources. -/
def unknownSourceEvent : RawEvent :=
  { id := 7, source := "mystery-source",
    raw_payload := Json.obj [("posts", Json.arr [Json.str "hello"])],
    fetched_at := 0 }

/-- A recognized companion event for the batch witness. -/
def redditEvent : RawEvent :=
  { id := 8, source := "reddit",
    raw_payload := Json.arr [Json.obj [("title", Json.str "T-Mobile outage"),
                                       ("selftext", Json.str "network down")]],
    fetched_at := 0 }

/-- The spec's duplicate-rule similarity, stated on finite sets: the
case-insensitive Jaccard similarity |S₁ ∩ S₂| / |S₁ ∪ S₂| of the two
keyword sets. -/
def specJaccard (keywords1 keywords2 : List String) : ℚ :=
  let S1 := (keywords1.map jsToLower).toFinset
  let S2 := (keywords2.map jsToLower).toFinset
  ((S1 ∩ S2).card : ℚ) / ((S1 ∪ S2).card : ℚ)

/-- The duplicate group a lone signal forms: it is its own representative,
with intensity 1 and its own sentiment as the average. -/
def singletonGroup (s : Signal) : DuplicateGroup :=
  { representative := some s, duplicates := [s], intensity := 1,
    avgSentiment := s.sentiment }

/-!
# Theorems

Helper lemmas first, then one theorem per claim (with witnesses and
counterexamples where required).
-/

theorem jsOrOne_pos (v : Option ℤ) (h : 0 ≤ v.getD 1) : 1 ≤ jsOrOne v := by
  cases v with
  | none => simp [jsOrOne]
  | some x =>
    simp only [Option.getD_some] at h
    by_cases hx : x = 0
    · simp [jsOrOne, hx]
    · simp only [jsOrOne, if_neg hx]
      omega

theorem chi_total_intensity_pos (signals : List ChiRow)
    (hne : signals ≠ [])
    (hint : ∀ s ∈ signals, 0 ≤ s.intensity.getD 1) :
    0 < (signals.map (fun s => jsOrOne s.intensity)).sum := by
  have hpos : ∀ x ∈ signals.map (fun s => jsOrOne s.intensity), 0 < x := by
    intro x hx
    rcases List.mem_map.mp hx with ⟨s, hs, rfl⟩
    exact lt_of_lt_of_le Int.zero_lt_one (jsOrOne_pos _ (hint s hs))
  apply List.sum_pos _ hpos
  simpa using hne

/-- C1: for a non-empty signal set with non-negative recorded intensities,
`calculateCHI` returns `round(((avg + 1) / 2) * 100)` clamped to [0, 100],
where `avg` is the intensity-weighted mean sentiment with zero recorded
intensity treated as 1; for the pairs (-0.8, 10) and (0.2, 5) the score
is 27. -/
theorem calculateCHI_weighted_formula (signals : List ChiRow)
    (hne : signals ≠ [])
    (hint : ∀ s ∈ signals, 0 ≤ s.intensity.getD 1) :
    (calculateCHI signals =
      some (max 0 (min 100 (jsRound
        ((((signals.map (fun s => jsOrZero s.sentiment * (jsOrOne s.intensity : ℚ))).sum /
            (((signals.map (fun s => jsOrOne s.intensity)).sum : ℤ) : ℚ) + 1) / 2) * 100))))) ∧
    calculateCHI [{ sentiment := some (-8/10), intensity := some 10 },
                  { sentiment := some (2/10), intensity := some 5 }] = some 27 := by
  constructor
  · have hlen : ¬ signals.length = 0 := by
      simpa [List.length_eq_zero] using hne
    have hpos := chi_total_intensity_pos signals hne hint
    unfold calculateCHI
    rw [if_neg hlen, if_neg hpos.ne']
  · decide

/-- C1 witness: the theorem applied to the spec's two-signal scenario. -/
theorem calculateCHI_weighted_formula_witness :
    calculateCHI [{ sentiment := some (-8/10), intensity := some 10 },
                  { sentiment := some (2/10), intensity := some 5 }] = some 27 :=
  (calculateCHI_weighted_formula
    [{ sentiment := some (-8/10), intensity := some 10 },
     { sentiment := some (2/10), intensity := some 5 }]
    (by decide) (by decide)).2

/-- C2: `calculateCHI` returns the explicit "no data" result (`none`) on an
empty signal set, and every non-`none` value it returns is an integer score
in [0, 100]. -/
theorem calculateCHI_none_on_empty_and_range :
    calculateCHI [] = none ∧
    ∀ (signals : List ChiRow) (score : ℤ),
      calculateCHI signals = some score → 0 ≤ score ∧ score ≤ 100 := by
  refine ⟨rfl, ?_⟩
  intro signals score h
  simp only [calculateCHI] at h
  split at h
  · exact absurd h (by simp)
  · split at h
    · exact absurd h (by simp)
    · have hs : max 0 (min 100 _) = score := Option.some.inj h
      refine ⟨hs ▸ le_max_left _ _, hs ▸ ?_⟩
      exact max_le (by norm_num) (min_le_left _ _)

/-- C2 witness: the range fact applied to the two-signal scenario. -/
theorem calculateCHI_none_on_empty_and_range_witness :
    (0 : ℤ) ≤ 27 ∧ (27 : ℤ) ≤ 100 :=
  calculateCHI_none_on_empty_and_range.2
    [{ sentiment := some (-8/10), intensity := some 10 },
     { sentiment := some (2/10), intensity := some 5 }] 27 (by decide)

theorem dedupToFinset {α : Type} [DecidableEq α] (l : List α) :
    l.dedup.toFinset = l.toFinset := by
  ext a
  simp [List.mem_dedup]

theorem keywordSimilarity_eq_specJaccard (k1 k2 : List String) :
    calculateKeywordSimilarity k1 k2 = specJaccard k1 k2 := by
  unfold calculateKeywordSimilarity specJaccard
  dsimp only
  by_cases h1 : k1.length = 0
  · obtain rfl : k1 = [] := List.length_eq_zero.mp h1
    simp
  by_cases h2 : k2.length = 0
  · obtain rfl : k2 = [] := List.length_eq_zero.mp h2
    simp
  rw [if_neg (by tauto)]
  have hmatch :
      ((k1.map jsToLower).dedup.filter
        (fun k => k ∈ (k2.map jsToLower).dedup)).length =
      ((k1.map jsToLower).toFinset ∩ (k2.map jsToLower).toFinset).card := by
    have hnd : ((k1.map jsToLower).dedup.filter
        (fun k => k ∈ (k2.map jsToLower).dedup)).Nodup :=
      (k1.map jsToLower).nodup_dedup.filter _
    rw [← List.toFinset_card_of_nodup hnd]
    congr 1
    ext a
    simp [List.mem_filter, List.mem_dedup, Finset.mem_inter]
  have hunion :
      (((k1.map jsToLower).dedup ++ (k2.map jsToLower).dedup).dedup).length =
      ((k1.map jsToLower).toFinset ∪ (k2.map jsToLower).toFinset).card := by
    rw [← List.card_toFinset, List.toFinset_append]
    congr 1
    ext a
    simp [List.mem_dedup]
  rw [hmatch, hunion]

/-- C3: `areDuplicates` holds exactly when the two signals share a product
area, their timestamps differ by at most 30 minutes, and the
case-insensitive Jaccard similarity of their keyword sets is at least 0.5;
the scenario signals (10 minutes apart, keyword sets
{network, outage, dallas} / {network, down, dallas}) have Jaccard 2/4 and
are duplicates; a group's representative is the member with the larger
sentiment magnitude. -/
theorem areDuplicates_iff_and_scenario :
    (∀ s1 s2 : Signal,
      areDuplicates s1 s2 = true ↔
        (s1.product_area = s2.product_area ∧
         |s1.detected_at - s2.detected_at| ≤ 30 * 60 * 1000 ∧
         (1 : ℚ)/2 ≤ specJaccard s1.keywords s2.keywords)) ∧
    (specJaccard scenarioSignalA.keywords scenarioSignalB.keywords = 2/4 ∧
     areDuplicates scenarioSignalA scenarioSignalB = true) ∧
    (∀ a b : Signal, |b.sentiment| < |a.sentiment| →
      selectRepresentative [a, b] = some a ∧
      selectRepresentative [b, a] = some a) := by
  refine ⟨?_, ⟨by decide, by decide⟩, ?_⟩
  · intro s1 s2
    unfold areDuplicates
    constructor
    · intro h
      split at h
      · exact absurd h (by simp)
      · split at h
        · exact absurd h (by simp)
        · rename_i hpa htw
          have hsim := of_decide_eq_true h
          rw [keywordSimilarity_eq_specJaccard] at hsim
          have htw2 : isWithinTimeWindow s1.detected_at s2.detected_at = true :=
            not_not.mp htw
          simp only [isWithinTimeWindow, decide_eq_true_eq] at htw2
          exact ⟨not_not.mp hpa, htw2, hsim⟩
    · rintro ⟨hpa, ht, hs⟩
      rw [if_neg (not_not.mpr hpa), if_neg ?_]
      · exact decide_eq_true (by
          rw [keywordSimilarity_eq_specJaccard]
          exact hs)
      · rw [not_not]
        show isWithinTimeWindow s1.detected_at s2.detected_at = true
        unfold isWithinTimeWindow
        exact decide_eq_true ht
  · intro a b hab
    have h1 : ¬ repPreferred b a := by
      unfold repPreferred
      rintro (h | ⟨h, _⟩)
      · exact absurd hab (lt_asymm h)
      · exact absurd h hab.ne
    have h2 : repPreferred a b := Or.inl hab
    constructor
    · simp only [selectRepresentative, List.foldl_cons, List.foldl_nil,
        if_neg h1]
    · simp only [selectRepresentative, List.foldl_cons, List.foldl_nil,
        if_pos h2]

/-- C3 witness: the rule and the representative choice applied to the two
scenario signals. -/
theorem areDuplicates_iff_and_scenario_witness :
    areDuplicates scenarioSignalA scenarioSignalB = true ∧
    selectRepresentative [scenarioSignalA, scenarioSignalB] =
      some scenarioSignalA ∧
    selectRepresentative [scenarioSignalB, scenarioSignalA] =
      some scenarioSignalA := by
  have h := areDuplicates_iff_and_scenario
  have hrep := h.2.2 scenarioSignalA scenarioSignalB (by decide)
  exact ⟨(h.1 scenarioSignalA scenarioSignalB).mpr (by decide),
         hrep.1, hrep.2⟩

/-- C4 counterexample: a merge of an earlier-detected candidate onto a
stored signal (intensity 5, no recorded duplicate count) leaves the stored
`detected_at` unchanged instead of taking the earlier timestamp, and sets
intensity to 2 = duplicate_count-default + 1 instead of 5 + 1. -/
theorem merge_update_counterexample :
    findExistingDuplicate mergeCandidate [mergeExisting] = some mergeExisting ∧
    mergeCandidate.detected_at = 0 ∧ mergeExisting.detected_at = 600000 ∧
    (applyMergeUpdate mergeExisting mergeCandidate).detected_at = 600000 ∧
    (applyMergeUpdate mergeExisting mergeCandidate).detected_at ≠
      min mergeExisting.detected_at mergeCandidate.detected_at ∧
    mergeExisting.intensity = some 5 ∧
    (applyMergeUpdate mergeExisting mergeCandidate).intensity = some 2 ∧
    (applyMergeUpdate mergeExisting mergeCandidate).intensity ≠
      mergeExisting.intensity.map (fun i => i + 1) := by
  refine ⟨by decide, by decide, by decide, by decide, by decide, by decide,
    by decide, by decide⟩

/-- C4 (amended): the merge update persists the averaged sentiment, sets
both the stored intensity and the recorded duplicate count to
(existing duplicate_count, defaulting to 1) + 1, and records the latest
contributing source and timestamp in the metadata; the stored `detected_at`
is left unchanged — only the in-memory merged signal carries the earlier of
the two timestamps, and it is not written back. -/
theorem merge_update_semantics (existing newSignal : Signal) :
    (applyMergeUpdate existing newSignal).sentiment =
      (existing.sentiment + newSignal.sentiment) / 2 ∧
    (applyMergeUpdate existing newSignal).intensity =
      some (jsOrOne existing.meta.duplicate_count + 1) ∧
    (applyMergeUpdate existing newSignal).meta.duplicate_count =
      some (jsOrOne existing.meta.duplicate_count + 1) ∧
    (applyMergeUpdate existing newSignal).meta.latest_source =
      some newSignal.source ∧
    (applyMergeUpdate existing newSignal).meta.latest_detected =
      some newSignal.detected_at ∧
    (applyMergeUpdate existing newSignal).detected_at = existing.detected_at ∧
    (mergeSignals existing newSignal).detected_at =
      min existing.detected_at newSignal.detected_at := by
  refine ⟨rfl, rfl, rfl, rfl, rfl, rfl, ?_⟩
  unfold mergeSignals
  dsimp only
  rw [min_def]
  split_ifs <;> omega

/-- C5 counterexample: on the spec's own velocity scenario (two snapshots
two hours apart, intensities 20 → 60) the computed confidence is
0.6 = min(0.9, 0.5 + 2/20), not 0.55. -/
theorem velocity_confidence_counterexample :
    (computeVelocity velocityScenarioIssue velocityScenarioSnapshots
      7200000).confidence = 3/5 ∧
    (3/5 : ℚ) ≠ 11/20 := by
  exact ⟨by decide, by decide⟩

/-- C5 (amended): with at least two snapshots spanning positive elapsed
time, velocity = (newest − oldest intensity) / elapsed hours, confidence =
min(0.9, 0.5 + count/20), projected intensity = max(current, current +
2·velocity), and time-to-critical = (100 − current)/velocity when velocity
is positive and current < 100, else 0; on the scenario (snapshots 20 → 60
two hours apart, current intensity 60) this gives velocity 20, projection
100, time-to-critical 2 and confidence 0.6. -/
theorem velocity_snapshot_branch_formulas (issue : IssueAcc)
    (s0 s1 : SnapshotRow) (srest : List SnapshotRow) (now : ℤ)
    (helapsed : s0.snapshot_at <
      ((s1 :: srest).getLast (List.cons_ne_nil s1 srest)).snapshot_at) :
    (computeVelocity issue (s0 :: s1 :: srest) now =
      (let newestSnapshot := (s1 :: srest).getLast (List.cons_ne_nil s1 srest)
       let elapsedHours : ℚ :=
         ((newestSnapshot.snapshot_at - s0.snapshot_at : ℤ) : ℚ) / (1000 * 60 * 60)
       let velocity := (newestSnapshot.intensity - s0.intensity) / elapsedHours
       { velocity := velocity
         projectedIntensity :=
           max issue.totalIntensity (issue.totalIntensity + velocity * 2)
         confidence :=
           min (9/10) (1/2 + (((s0 :: s1 :: srest).length : ℕ) : ℚ) / 20)
         timeToSpreadHours :=
           if velocity > 0 ∧ issue.totalIntensity < 100 then
             (100 - issue.totalIntensity) / velocity
           else 0 })) ∧
    computeVelocity velocityScenarioIssue velocityScenarioSnapshots 7200000 =
      { velocity := 20, projectedIntensity := 100, confidence := 3/5,
        timeToSpreadHours := 2 } := by
  constructor
  · unfold computeVelocity
    dsimp only
    rw [if_pos]
    exact div_pos (by exact_mod_cast Int.sub_pos.mpr helapsed) (by norm_num)
  · decide

/-- C5 witness: the snapshot branch applied to the scenario input. -/
theorem velocity_snapshot_branch_formulas_witness :
    computeVelocity velocityScenarioIssue velocityScenarioSnapshots 7200000 =
      { velocity := 20, projectedIntensity := 100, confidence := 3/5,
        timeToSpreadHours := 2 } :=
  (velocity_snapshot_branch_formulas velocityScenarioIssue
    { intensity := 20, snapshot_at := 0, signal_count := 5 }
    { intensity := 60, snapshot_at := 7200000, signal_count := 9 }
    [] 7200000 (by decide)).2

/-- C6 counterexample: two signals of one group, first detected 0.9 h
before `now`, latest 0.5 h before `now`, total intensity 10 and no
snapshots: the code computes velocity 10 = 10 / max(0.5 h, 1), not
10 / 0.9 ≈ 11.1 (intensity / hours since FIRST signal, as claimed), and
not 10 / 0.5 = 20 either. -/
theorem velocity_estimate_counterexample :
    buildIssueMap [velocityRow1, velocityRow2] = [("net::p", velocityEstIssue)] ∧
    velocityRow1.detected_at = 10000000 - 3240000 ∧
    velocityEstIssue.latestTimestamp = 10000000 - 1800000 ∧
    (computeVelocity velocityEstIssue [] 10000000).velocity = 10 ∧
    (10 : ℚ) ≠ 10 / (9/10) ∧
    (10 : ℚ) ≠ 10 / (1/2) := by
  refine ⟨by decide, by decide, by decide, by decide, by decide, by decide⟩

/-- C6 (amended): with fewer than two snapshots and more than one signal in
the current hour, and the LATEST signal more than 6 minutes (0.1 h) old,
the estimated velocity is current intensity divided by
max(hours since the latest signal, 1), with confidence 0.3; with less data
than that the velocity stays 0. -/
theorem velocity_estimate_branch_formulas (issue : IssueAcc)
    (snapshots : List SnapshotRow) (now : ℤ)
    (hsnap : snapshots.length < 2) :
    (1 < issue.signalCount →
      (1/10 : ℚ) < ((now - issue.latestTimestamp : ℤ) : ℚ) / (1000 * 60 * 60) →
      (computeVelocity issue snapshots now).velocity =
        issue.totalIntensity /
          max (((now - issue.latestTimestamp : ℤ) : ℚ) / (1000 * 60 * 60)) 1 ∧
      (computeVelocity issue snapshots now).confidence = 3/10) ∧
    (1 < issue.signalCount →
      ¬ ((1/10 : ℚ) < ((now - issue.latestTimestamp : ℤ) : ℚ) / (1000 * 60 * 60)) →
      (computeVelocity issue snapshots now).velocity = 0) ∧
    (issue.signalCount ≤ 1 →
      (computeVelocity issue snapshots now).velocity = 0) := by
  have hred : computeVelocity issue snapshots now =
      (if issue.signalCount > 1 then
        (if ((now - issue.latestTimestamp : ℤ) : ℚ) / (1000 * 60 * 60) > 1/10 then
          (let velocity := issue.totalIntensity /
            max (((now - issue.latestTimestamp : ℤ) : ℚ) / (1000 * 60 * 60)) 1
           { velocity := velocity
             projectedIntensity := issue.totalIntensity + velocity * 2
             confidence := 3/10
             timeToSpreadHours :=
               if velocity > 0 ∧ issue.totalIntensity < 100 then
                 (100 - issue.totalIntensity) / velocity
               else 0 })
        else
          { velocity := 0, projectedIntensity := issue.totalIntensity,
            confidence := 1/2, timeToSpreadHours := 0 })
      else
        { velocity := 0, projectedIntensity := issue.totalIntensity,
          confidence := 1/2, timeToSpreadHours := 0 }) := by
    match snapshots, hsnap with
    | [], _ => rfl
    | [_], _ => rfl
  refine ⟨?_, ?_, ?_⟩
  · intro hcount htime
    rw [hred, if_pos hcount, if_pos htime]
    exact ⟨rfl, rfl⟩
  · intro hcount htime
    rw [hred, if_pos hcount, if_neg htime]
  · intro hcount
    rw [hred, if_neg (by omega)]

/-- C6 witness: the estimate branch applied to the concrete issue (total
intensity 10, two signals, latest 0.5 h old, no snapshots). -/
theorem velocity_estimate_branch_formulas_witness :
    (computeVelocity velocityEstIssue [] 10000000).velocity =
      velocityEstIssue.totalIntensity /
        max ((((10000000 : ℤ) - velocityEstIssue.latestTimestamp : ℤ) : ℚ) /
          (1000 * 60 * 60)) 1 ∧
    (computeVelocity velocityEstIssue [] 10000000).confidence = 3/10 :=
  (velocity_estimate_branch_formulas velocityEstIssue [] 10000000
    (by decide)).1 (by decide) (by decide)

theorem calculateConfidence_bounds (winkResult : WinkResult)
    (textQuality : TextQuality) (textLength : ℕ) :
    1/10 ≤ calculateConfidence winkResult textQuality textLength ∧
    calculateConfidence winkResult textQuality textLength ≤ 95/100 := by
  unfold calculateConfidence
  exact ⟨le_max_left _ _, max_le (by norm_num) (min_le_left _ _)⟩

/-- C7: for every input text (empty, punctuation-only, arbitrarily long)
and every behaviour of the external wink-sentiment scorer — including a
thrown exception, modelled as `none` — `analyzeSentiment` returns a score
in [-1, 1] and a confidence in [0, 1]. -/
theorem analyzeSentiment_bounds (text : String) (wink : Option WinkResult) :
    -1 ≤ (analyzeSentiment text wink).score ∧
    (analyzeSentiment text wink).score ≤ 1 ∧
    0 ≤ (analyzeSentiment text wink).confidence ∧
    (analyzeSentiment text wink).confidence ≤ 1 := by
  unfold analyzeSentiment
  split
  · refine ⟨by norm_num [emptySentimentResult], by norm_num [emptySentimentResult],
      by norm_num [emptySentimentResult], by norm_num [emptySentimentResult]⟩
  · cases wink with
    | none =>
      refine ⟨by norm_num [emptySentimentResult], by norm_num [emptySentimentResult],
        by norm_num [emptySentimentResult], by norm_num [emptySentimentResult]⟩
    | some w =>
      dsimp only
      have hconf := calculateConfidence_bounds w
        (assessTextQuality (preprocessText text)) (preprocessText text).length
      refine ⟨le_max_left _ _,
        max_le (by norm_num) (min_le_left _ _),
        le_trans (by norm_num) hconf.1,
        le_trans hconf.2 (by norm_num)⟩

theorem groupDuplicatesAux_of_pairwise (signals : List Signal) :
    ∀ fuel : ℕ, signals.length ≤ fuel →
      signals.Pairwise (fun a b => areDuplicates a b = false) →
      groupDuplicatesAux fuel signals = signals.map singletonGroup := by
  induction signals with
  | nil =>
    intro fuel _ _
    cases fuel
    · rfl
    · rfl
  | cons s rest ih =>
    intro fuel hlen hpw
    obtain ⟨hs, hrest⟩ := List.pairwise_cons.mp hpw
    match fuel, hlen with
    | fuel + 1, hlen =>
      have hf1 : rest.filter (fun o => areDuplicates s o) = [] :=
        List.filter_eq_nil_iff.mpr (fun a ha => by simp [hs a ha])
      have hf2 : rest.filter (fun o => ! areDuplicates s o) = rest :=
        List.filter_eq_self.mpr (fun a ha => by simp [hs a ha])
      show groupDuplicatesAux (fuel + 1) (s :: rest) = _
      unfold groupDuplicatesAux
      dsimp only
      rw [hf1, hf2, ih fuel (by simpa using hlen) hrest]
      have havg : calculateAvgSentiment [s] = s.sentiment := by
        unfold calculateAvgSentiment
        norm_num
      have hrep : selectRepresentative [s] = some s := rfl
      rw [List.map_cons]
      congr 1
      unfold singletonGroup
      rw [← havg, ← hrep]
      rfl

/-- C8 (amended): grouping a list of pairwise non-duplicate signals yields
one singleton group per signal, so re-grouping a representative set is
idempotent WHEN the representatives are pairwise non-duplicates; in general
the representatives of `groupDuplicates` need not be pairwise
non-duplicates (duplicate similarity is not transitive), and re-grouping
them can merge two groups. -/
theorem groupDuplicates_pairwise_nondup_singletons (signals : List Signal)
    (h : signals.Pairwise (fun a b => areDuplicates a b = false)) :
    groupDuplicates signals = signals.map singletonGroup :=
  groupDuplicatesAux_of_pairwise signals signals.length le_rfl h

/-- C8 witness: two pairwise non-duplicate signals stay in singleton
groups. -/
theorem groupDuplicates_pairwise_nondup_singletons_witness :
    groupDuplicates [seedSignal, bridgeSignal] =
      [singletonGroup seedSignal, singletonGroup bridgeSignal] :=
  groupDuplicates_pairwise_nondup_singletons [seedSignal, bridgeSignal]
    (by decide)

/-- C8 counterexample: grouping [seed, extreme, bridge] produces two groups
whose representatives are [extreme, bridge]; re-grouping that
representative list merges them into ONE group (extreme and bridge are
duplicates of each other even though their groups were distinct), so
grouping the representatives again does NOT reproduce the groups. -/
theorem groupDuplicates_not_idempotent_counterexample :
    (groupDuplicates [seedSignal, extremeSignal, bridgeSignal]).length = 2 ∧
    (groupDuplicates [seedSignal, extremeSignal, bridgeSignal]).filterMap
      DuplicateGroup.representative = [extremeSignal, bridgeSignal] ∧
    (groupDuplicates [extremeSignal, bridgeSignal]).length = 1 ∧
    groupDuplicates [extremeSignal, bridgeSignal] ≠
      [extremeSignal, bridgeSignal].map singletonGroup := by
  refine ⟨by decide, by decide, by decide, by decide⟩

theorem processEvent_always_success (psi : ExtractedItem → Bool)
    (event : RawEvent) : (processEvent psi event).1 = true := by
  unfold processEvent
  dsimp only
  split
  · rfl
  · rfl

theorem runBatch_foldl_spec (psi : ExtractedItem → Bool)
    (events : List RawEvent) : ∀ acc : BatchState,
    (events.foldl (batchStep psi) acc).successCount =
      acc.successCount + events.length ∧
    (events.foldl (batchStep psi) acc).processedEventIds =
      acc.processedEventIds ++ events.map RawEvent.id := by
  induction events with
  | nil =>
    intro acc
    simp
  | cons e rest ih =>
    intro acc
    have hstep : batchStep psi acc e =
        { successCount := acc.successCount + 1
          totalSignalsCreated := acc.totalSignalsCreated + (processEvent psi e).2
          processedEventIds := acc.processedEventIds ++ [e.id] } := by
      unfold batchStep
      rw [if_pos]
      exact processEvent_always_success psi e
    rw [List.foldl_cons, hstep]
    obtain ⟨h1, h2⟩ := ih
      { successCount := acc.successCount + 1
        totalSignalsCreated := acc.totalSignalsCreated + (processEvent psi e).2
        processedEventIds := acc.processedEventIds ++ [e.id] }
    constructor
    · rw [h1, List.length_cons]
      show acc.successCount + 1 + rest.length = acc.successCount + (rest.length + 1)
      omega
    · rw [h2]
      simp

/-- C9: a raw event carrying an unrecognized source tag yields zero
extracted items, `processEvent` reports success with zero signals created,
and in any batch containing the event it is counted among the successes and
its id is included in the final bulk update that marks events processed. -/
theorem unknown_source_processed_as_success (event : RawEvent)
    (h : event.source ∉ ["reddit", "google-news", "tmobile-community",
      "outage-report", "downdetector", "customer-feedback",
      "istheservicedown"]) (psi : ExtractedItem → Bool) :
    extractIndividualItems event.raw_payload event.source = [] ∧
    processEvent psi event = (true, 0) ∧
    ∀ events : List RawEvent, event ∈ events →
      (runBatch psi events).successCount = events.length ∧
      event.id ∈ (runBatch psi events).processedEventIds ∧
      event.id ∈ markedProcessedIds (runBatch psi events) := by
  simp only [List.mem_cons, List.not_mem_nil, or_false, not_or] at h
  obtain ⟨h1, h2, h3, h4, h5, h6, h7⟩ := h
  have hext : extractIndividualItems event.raw_payload event.source = [] := by
    unfold extractIndividualItems extractIndividualItemsCore
    rw [if_neg h1, if_neg h6, if_neg h3, if_neg h4, if_neg h5, if_neg h2,
      if_neg h7]
  have hproc : processEvent psi event = (true, 0) := by
    unfold processEvent
    rw [hext]
    rfl
  refine ⟨hext, hproc, ?_⟩
  intro events hmem
  obtain ⟨hcount, hids⟩ := runBatch_foldl_spec psi events
    { successCount := 0, totalSignalsCreated := 0, processedEventIds := [] }
  have hids' : (runBatch psi events).processedEventIds =
      events.map RawEvent.id := by
    unfold runBatch
    rw [hids]
    rfl
  have hmemid : event.id ∈ (runBatch psi events).processedEventIds := by
    rw [hids']
    exact List.mem_map_of_mem RawEvent.id hmem
  refine ⟨?_, hmemid, ?_⟩
  · unfold runBatch
    rw [hcount]
    simp
  · unfold markedProcessedIds
    rw [if_pos]
    · exact hmemid
    · have : (runBatch psi events).processedEventIds ≠ [] := by
        intro hnil
        rw [hnil] at hmemid
        exact List.not_mem_nil _ hmemid
      have hlen : (runBatch psi events).processedEventIds.length ≠ 0 := by
        simpa [List.length_eq_zero] using this
      omega

/-- C9 witness: a two-event batch containing an unknown-source event and a
reddit event; the unknown event extracts no items, succeeds with zero
signals, and its id 7 is in the bulk update. -/
theorem unknown_source_processed_as_success_witness :
    extractIndividualItems unknownSourceEvent.raw_payload
      unknownSourceEvent.source = [] ∧
    processEvent (fun _ => true) unknownSourceEvent = (true, 0) ∧
    (runBatch (fun _ => true) [unknownSourceEvent, redditEvent]).successCount = 2 ∧
    unknownSourceEvent.id ∈
      (runBatch (fun _ => true) [unknownSourceEvent, redditEvent]).processedEventIds ∧
    unknownSourceEvent.id ∈
      markedProcessedIds (runBatch (fun _ => true) [unknownSourceEvent, redditEvent]) := by
  have h := unknown_source_processed_as_success unknownSourceEvent (by decide)
    (fun _ => true)
  have hb := h.2.2 [unknownSourceEvent, redditEvent]
    (List.mem_cons_self unknownSourceEvent [redditEvent])
  exact ⟨h.1, h.2.1, hb.1, hb.2.1, hb.2.2⟩

/-- C10: a candidate signal with an empty keyword list has keyword
similarity 0 against every signal (similarity is 0 whenever either keyword
set is empty), so `findExistingDuplicate` returns `none` whatever the
stored signals are — even an identical keyword-less signal in the same
product area and time window — and `processSingleItem` always takes the
insert branch with intensity 1. -/
theorem empty_keywords_always_insert (newSignal : Signal)
    (h : newSignal.keywords = []) (recentSignals : List Signal)
    (productAreaId : Option String) (geo : Option Json) :
    (∀ ks : List String,
      calculateKeywordSimilarity [] ks = 0 ∧
      calculateKeywordSimilarity ks [] = 0) ∧
    findExistingDuplicate newSignal recentSignals = none ∧
    processSingleItemAction newSignal recentSignals productAreaId geo =
      DbAction.insert newSignal.source newSignal.detected_at
        newSignal.sentiment newSignal.topic 1 productAreaId geo
        newSignal.meta := by
  have hsim : ∀ ks : List String,
      calculateKeywordSimilarity [] ks = 0 ∧
      calculateKeywordSimilarity ks [] = 0 := by
    intro ks
    constructor
    · unfold calculateKeywordSimilarity
      rw [if_pos (show ([] : List String).length = 0 ∨ ks.length = 0 from
        Or.inl rfl)]
    · unfold calculateKeywordSimilarity
      rw [if_pos (show ks.length = 0 ∨ ([] : List String).length = 0 from
        Or.inr rfl)]
  have hdup : ∀ s : Signal, areDuplicates newSignal s = false := by
    intro s
    unfold areDuplicates
    split
    · rfl
    · split
      · rfl
      · rw [h, (hsim s.keywords).1]
        decide
  have hfind : findExistingDuplicate newSignal recentSignals = none := by
    unfold findExistingDuplicate
    apply List.find?_eq_none.mpr
    intro s _
    simp [hdup s]
  refine ⟨hsim, hfind, ?_⟩
  unfold processSingleItemAction
  by_cases hl : recentSignals.length > 0
  · rw [if_pos hl, hfind]
  · rw [if_neg hl]

/-- C10 witness: a keyword-less candidate against an identical keyword-less
stored signal in the same area at the same time is not a duplicate and is
inserted with intensity 1. -/
theorem empty_keywords_always_insert_witness :
    findExistingDuplicate emptyKwCandidate [emptyKwExisting] = none ∧
    processSingleItemAction emptyKwCandidate [emptyKwExisting]
      (some "area-1") none =
      DbAction.insert "reddit" 0 (-1/2) "" 1 (some "area-1") none
        emptyKwCandidate.meta := by
  have h := empty_keywords_always_insert emptyKwCandidate rfl
    [emptyKwExisting] (some "area-1") none
  exact ⟨h.2.1, h.2.2⟩

end TInsight

